import Mathlib

/-!
Verification development for the `python-institute-scraper` repository.

The two scripts `web-scraping/scrap.py` and `web-scraping/json_to_names_csv.py`
are shallowly embedded below.  JSON data (and the Python values the scripts
manipulate) are modelled by the inductive type `JVal`; Python dictionary
operations that can raise (`d.get` on a non-dict, `d[k]`, `", ".join` on
non-strings, `.lower()` on a non-string) are modelled in the `Option` monad,
`none` standing for a raised exception.

Modelling notes (each is a deliberate, claim-irrelevant abstraction):
* JSON numbers are modelled as integers; no claim depends on fractional
  field values inside records.  Coordinates parsed by the locator are
  modelled exactly as rationals.
* `str.lower()` is modelled as ASCII lowercasing; the Bangla keywords used
  by the classifier are caseless and unaffected.
* Python `repr` of nested lists/dicts (reachable only through `str()` of a
  non-scalar) is modelled with the common escape sequences; exotic control
  characters are not modelled and no claim exercises them.
* `float(...)` is modelled as exact decimal parsing into `ℚ` (no IEEE
  rounding, no exponent/`inf`/`nan` forms); the claims only exercise plain
  decimal strings.
-/

/-- JSON / Python values as the scripts see them (`None`, `bool`, `int`,
`str`, `list`, `dict`).  Objects are association lists with the unique-key
property JSON parsing guarantees. -/
inductive JVal where
  | null
  | bool (b : Bool)
  | num (n : Int)
  | str (s : String)
  | arr (xs : List JVal)
  | obj (kvs : List (String × JVal))

mutual
/-- Decision procedure for equality of `JVal` values (Python `==` on the
values the scripts compare). -/
def jdec : (a b : JVal) → Decidable (a = b)
  | .null, .null => isTrue rfl
  | .bool a, .bool b =>
    if h : a = b then isTrue (by rw [h]) else isFalse (by simp [h])
  | .num a, .num b =>
    if h : a = b then isTrue (by rw [h]) else isFalse (by simp [h])
  | .str a, .str b =>
    if h : a = b then isTrue (by rw [h]) else isFalse (by simp [h])
  | .arr xs, .arr ys =>
    match jdecList xs ys with
    | isTrue h => isTrue (by rw [h])
    | isFalse h => isFalse (by simp [h])
  | .obj xs, .obj ys =>
    match jdecKV xs ys with
    | isTrue h => isTrue (by rw [h])
    | isFalse h => isFalse (by simp [h])
  | .null, .bool _ | .null, .num _ | .null, .str _ | .null, .arr _ | .null, .obj _
  | .bool _, .null | .bool _, .num _ | .bool _, .str _ | .bool _, .arr _ | .bool _, .obj _
  | .num _, .null | .num _, .bool _ | .num _, .str _ | .num _, .arr _ | .num _, .obj _
  | .str _, .null | .str _, .bool _ | .str _, .num _ | .str _, .arr _ | .str _, .obj _
  | .arr _, .null | .arr _, .bool _ | .arr _, .num _ | .arr _, .str _ | .arr _, .obj _
  | .obj _, .null | .obj _, .bool _ | .obj _, .num _ | .obj _, .str _ | .obj _, .arr _ =>
    isFalse (by simp)

def jdecList : (xs ys : List JVal) → Decidable (xs = ys)
  | [], [] => isTrue rfl
  | [], _ :: _ => isFalse (by simp)
  | _ :: _, [] => isFalse (by simp)
  | x :: xs, y :: ys =>
    match jdec x y, jdecList xs ys with
    | isTrue h1, isTrue h2 => isTrue (by rw [h1, h2])
    | isFalse h1, _ => isFalse (by simp [h1])
    | _, isFalse h2 => isFalse (by simp [h2])

def jdecKV : (xs ys : List (String × JVal)) → Decidable (xs = ys)
  | [], [] => isTrue rfl
  | [], _ :: _ => isFalse (by simp)
  | _ :: _, [] => isFalse (by simp)
  | (k1, v1) :: xs, (k2, v2) :: ys =>
    if hk : k1 = k2 then
      match jdec v1 v2, jdecKV xs ys with
      | isTrue h1, isTrue h2 => isTrue (by rw [hk, h1, h2])
      | isFalse h1, _ => isFalse (by simp [h1])
      | _, isFalse h2 => isFalse (by simp [h2])
    else isFalse (by simp [hk])
end

instance : DecidableEq JVal := jdec

/-- Python truthiness of a value. -/
def truthy : JVal → Bool
  | .null => false
  | .bool b => b
  | .num n => n != 0
  | .str s => s != ""
  | .arr xs => !xs.isEmpty
  | .obj kvs => !kvs.isEmpty

/-- Association-list lookup (first binding wins; keys are unique). -/
def lookupKV (k : String) : List (String × JVal) → Option JVal
  | [] => none
  | (k2, v) :: rest => if k2 == k then some v else lookupKV k rest

/-- Value of key `k` in an object's bindings, `null` (Python `None`) when
absent — the result of `d.get(k)` on a dict. -/
def objGet (kvs : List (String × JVal)) (k : String) : JVal :=
  (lookupKV k kvs).getD .null

/-- Python `d.get(k)`: `none` models the `AttributeError` raised when `d`
is not a dict. -/
def pyGet (d : JVal) (k : String) : Option JVal :=
  match d with
  | .obj kvs => some (objGet kvs k)
  | _ => none

/-- Python `d.get(k, default)`. -/
def pyGetD (d : JVal) (k : String) (dflt : JVal) : Option JVal :=
  match d with
  | .obj kvs => some ((lookupKV k kvs).getD dflt)
  | _ => none

/-- Python `a or b` (value-returning, truthiness-based). -/
def pyOr (a b : JVal) : JVal :=
  if truthy a then a else b

/-- Needle is a prefix of the haystack (on character lists). -/
def charsLead : List Char → List Char → Bool
  | [], _ => true
  | _ :: _, [] => false
  | a :: ns, b :: bs => a == b && charsLead ns bs

/-- Needle occurs somewhere in the haystack (on character lists). -/
def charsHas (needle : List Char) : List Char → Bool
  | [] => needle.isEmpty
  | c :: cs => charsLead needle (c :: cs) || charsHas needle cs

/-- Python substring test `needle in hay` on strings. -/
def pyContains (needle hay : String) : Bool :=
  charsHas needle.data hay.data

/-- Python `k in d`: key test on dicts, substring test on strings,
membership on lists; `none` models the `TypeError` on other values. -/
def pyIn (k : String) (d : JVal) : Option Bool :=
  match d with
  | .obj kvs => some ((lookupKV k kvs).isSome)
  | .str s => some (pyContains k s)
  | .arr xs => some (xs.contains (.str k))
  | _ => none

/-- Python `d[k]` with a string key: `none` models `KeyError` on a dict
missing the key and `TypeError` on non-dict values. -/
def pyIndex (d : JVal) (k : String) : Option JVal :=
  match d with
  | .obj kvs => lookupKV k kvs
  | _ => none

/-- ASCII lowercasing of one character (Python `.lower()` restricted to the
character sets the scripts use). -/
def lowerAsc (c : Char) : Char :=
  if 'A' ≤ c && c ≤ 'Z' then Char.ofNat (c.toNat + 32) else c

/-- Python `s.lower()` on a string. -/
def pyLowerStr (s : String) : String :=
  String.mk (s.data.map lowerAsc)

/-- Python `.lower()` on a value: `none` models the `AttributeError` raised
on non-strings. -/
def lower_of : JVal → Option String
  | .str s => some (pyLowerStr s)
  | _ => none

/-- Conversion required by `str.join`: `none` models the `TypeError` raised
when an element is not a string. -/
def asStr : JVal → Option String
  | .str s => some s
  | _ => none

/-- Separator-interleaved concatenation (`sep.join` on plain strings). -/
def joinSep (sep : String) : List String → String
  | [] => ""
  | [x] => x
  | x :: xs => x ++ sep ++ joinSep sep xs

/-- All elements as strings, `none` as soon as one is not a string. -/
def strList : List JVal → Option (List String)
  | [] => some []
  | v :: vs => do
    let s ← asStr v
    let ss ← strList vs
    pure (s :: ss)

/-- Python `sep.join(parts)`. -/
def pyJoin (sep : String) (parts : List JVal) : Option String :=
  (strList parts).map (joinSep sep)

/-- Python `repr` of a string: single quotes unless the string holds a
single quote and no double quote; common escapes applied. -/
def pyReprStr (s : String) : String :=
  let q : Char := if pyContains "\x27" s && !pyContains "\x22" s then '\x22' else '\x27'
  let esc : Char → String := fun c =>
    if c = '\\' then "\\\\"
    else if c = q then "\\" ++ String.mk [q]
    else if c = '\n' then "\\n"
    else if c = '\r' then "\\r"
    else if c = '\t' then "\\t"
    else String.mk [c]
  String.mk [q] ++ String.join (s.data.map esc) ++ String.mk [q]

mutual
/-- Python `repr(v)` (strings get quoted; scalars as `str`). -/
def pyRepr : JVal → String
  | .null => "None"
  | .bool b => if b then "True" else "False"
  | .num n => toString n
  | .str s => pyReprStr s
  | .arr xs => "[" ++ joinSep ", " (pyReprList xs) ++ "]"
  | .obj kvs => "\x7b" ++ joinSep ", " (pyReprObj kvs) ++ "\x7d"

def pyReprList : List JVal → List String
  | [] => []
  | v :: vs => pyRepr v :: pyReprList vs

def pyReprObj : List (String × JVal) → List String
  | [] => []
  | (k, v) :: kvs => (pyReprStr k ++ ": " ++ pyRepr v) :: pyReprObj kvs
end

/-- Python `str(v)` for the values in this model (`repr` on the elements
of nested lists/dicts, as Python prints containers). -/
def pyStr : JVal → String
  | .null => "None"
  | .bool b => if b then "True" else "False"
  | .num n => toString n
  | .str s => s
  | .arr xs => "[" ++ joinSep ", " (pyReprList xs) ++ "]"
  | .obj kvs => "\x7b" ++ joinSep ", " (pyReprObj kvs) ++ "\x7d"

/-- Python whitespace characters recognised by `str.strip()` / `float()`. -/
def isPySpace (c : Char) : Bool :=
  c == ' ' || c == '\t' || c == '\n' || c == '\r' || c == '\x0b' || c == '\x0c'

/-- Python `s.strip()`. -/
def pyStrip (s : String) : String :=
  String.mk (((s.data.dropWhile isPySpace).reverse.dropWhile isPySpace).reverse)

/-- Python `s.split(sep)` for a one-character separator. -/
def splitOnChar (sep : Char) : List Char → List (List Char)
  | [] => [[]]
  | c :: cs =>
    if c == sep then [] :: splitOnChar sep cs
    else
      match splitOnChar sep cs with
      | [] => [[c]]
      | g :: gs => (c :: g) :: gs

/-- Python `s.split(sep)` on strings (one-character separator). -/
def pySplit1 (sep : Char) (s : String) : List String :=
  (splitOnChar sep s.data).map String.mk

def digitVal (c : Char) : Nat := c.toNat - '0'.toNat

def isDigitCh (c : Char) : Bool := '0' ≤ c && c ≤ '9'

def natOfDigits (cs : List Char) : Nat :=
  cs.foldl (fun acc c => acc * 10 + digitVal c) 0

/-- Magnitude part of Python `float(...)` on a plain decimal string:
digits with an optional single point.  (Exponent, `inf`, `nan` and digit
underscores are not modelled; the claims use plain decimals only.) -/
def floatMag (cs : List Char) : Option ℚ :=
  let ip := cs.takeWhile isDigitCh
  let rest := cs.dropWhile isDigitCh
  match rest with
  | [] => if ip.isEmpty then none else some (natOfDigits ip)
  | '.' :: fp =>
    if fp.all isDigitCh && (!ip.isEmpty || !fp.isEmpty) then
      some ((natOfDigits ip : ℚ) + (natOfDigits fp : ℚ) / ((10 : ℚ) ^ fp.length))
    else none
  | _ => none

/-- Python `float(s)`: strips whitespace, optional sign, decimal magnitude;
`none` models `ValueError`. -/
def pyFloat (s : String) : Option ℚ :=
  match (pyStrip s).data with
  | '-' :: rest => (floatMag rest).map Neg.neg
  | '+' :: rest => floatMag rest
  | cs => floatMag cs

/-!  ## Embedding of `web-scraping/json_to_names_csv.py`  -/

/-- The recurring pattern `item.get("tags") or {}` (lines 20, 127, 166 of
`json_to_names_csv.py`; raises when `item` is not a dict). -/
def tags_of (item : JVal) : Option JVal :=
  (pyGet item "tags").map (fun tv => pyOr tv (.obj []))

/-- Line 15, `extract_name`: top-level `name` if truthy, else
`tags.get("name", "")`. -/
def extract_name (item : JVal) : Option JVal := do
  let name ← pyGet item "name"
  if truthy name then
    pure name
  else do
    let tags ← tags_of item
    pyGetD tags "name" (.str "")

/-- Line 24, `load_json`, applied to the already-parsed JSON document:
for a dict, the first of `results`, `elements`, `items` holding a list,
else the dict as a single item; a list as-is; anything else `[]`. -/
def load_json (data : JVal) : List JVal :=
  match data with
  | .obj kvs =>
    match lookupKV "results" kvs with
    | some (.arr xs) => xs
    | _ =>
      match lookupKV "elements" kvs with
      | some (.arr xs) => xs
      | _ =>
        match lookupKV "items" kvs with
        | some (.arr xs) => xs
        | _ => [.obj kvs]
  | .arr xs => xs
  | _ => []

/-- Line 101, `extract_address`: truthy values among the five `addr:*`
keys joined with `", "`, else `addr:full`, else `contact:address`,
else `""`. -/
def extract_address (tags : JVal) : Option JVal := do
  let v1 ← pyGet tags "addr:housenumber"
  let v2 ← pyGet tags "addr:street"
  let v3 ← pyGet tags "addr:city"
  let v4 ← pyGet tags "addr:postcode"
  let v5 ← pyGet tags "addr:country"
  let parts := [v1, v2, v3, v4, v5].filter truthy
  if !parts.isEmpty then do
    let joined ← pyJoin ", " parts
    pure (.str joined)
  else do
    let fullv ← pyGet tags "addr:full"
    if truthy fullv then
      pure fullv
    else do
      let contactv ← pyGet tags "contact:address"
      if truthy contactv then pure contactv else pure (.str "")

/-- Line 112, `extract_phone`: first of `phone`, `contact:phone`,
`telephone` present as a key (presence, not truthiness), else `""`. -/
def extract_phone (tags : JVal) : Option JVal := do
  if ← pyIn "phone" tags then
    pyIndex tags "phone"
  else if ← pyIn "contact:phone" tags then
    pyIndex tags "contact:phone"
  else if ← pyIn "telephone" tags then
    pyIndex tags "telephone"
  else
    pure (.str "")

/-- The pattern `(tags.get(k) or "").lower()` (lines 128-130). -/
def tag_low (tags : JVal) (k : String) : Option String := do
  let v ← pyGet tags k
  lower_of (pyOr v (.str ""))

/-- The pattern `(extract_name(item) or "").lower()` (line 131). -/
def name_low (item : JVal) : Option String := do
  let nv ← extract_name item
  lower_of (pyOr nv (.str ""))

/-- Line 140 of the source; the two Bangla spellings there are
byte-identical (U+09AE U+09BE U+09A6 U+09CD U+09B0 U+09BE U+09B8 U+09BE). -/
def madrasa_keywords : List String :=
  ["madrasa", "madrash",
   "\u09AE\u09BE\u09A6\u09CD\u09B0\u09BE\u09B8\u09BE",
   "\u09AE\u09BE\u09A6\u09CD\u09B0\u09BE\u09B8\u09BE"]

/-- Line 149 of the source; the two Bangla spellings differ in the final
letter's encoding (U+09AF U+09BC vs the precomposed U+09DF). -/
def school_keywords : List String :=
  ["school", "schooling",
   "\u09AC\u09BF\u09A6\u09CD\u09AF\u09BE\u09B2\u09AF\u09BC",
   "\u09AC\u09BF\u09A6\u09CD\u09AF\u09BE\u09B2\u09DF",
   "primary", "secondary"]

/-- Line 150 of the source. -/
def college_keywords : List String :=
  ["college", "university", "institute", "institute of",
   "\u0995\u09B2\u09C7\u099C",
   "\u09AC\u09BF\u09B6\u09CD\u09AC\u09AC\u09BF\u09A6\u09CD\u09AF\u09BE\u09B2\u09AF\u09BC"]

/-- Line 119, `determine_category`: the ordered first-match rule chain.
Rule 4 keeps Python's precedence `A or (B and C)`, with `B` evaluated only
when `A` is falsy, exactly as in the source. -/
def determine_category (item : JVal) : Option String := do
  let tags ← tags_of item
  let amenity ← tag_low tags "amenity"
  let building ← tag_low tags "building"
  let office ← tag_low tags "office"
  let name ← name_low item
  if amenity == "school" then
    pure "school"
  else if amenity == "college" || amenity == "university" ||
      building == "college" || building == "university" then
    pure "college"
  else if madrasa_keywords.any (fun kw => pyContains kw name) then
    pure "madrasa"
  else do
    let mad ← pyGet tags "madrasa"
    let hit ←
      if truthy mad then
        pure true
      else do
        let rel ← pyGet tags "religion"
        pure (rel == JVal.str "muslim" && pyContains "madrasa" name)
    if hit then
      pure "madrasa"
    else if school_keywords.any (fun kw => pyContains kw name) then
      pure "school"
    else if college_keywords.any (fun kw => pyContains kw name) then
      pure "college"
    else if office == "education" || office == "training" || building == "school" then
      pure "school"
    else
      pure "other"

/-- Line 165, `extract_value`: per-field fallback chains, short-circuiting
exactly as the Python `or` chains do. -/
def extract_value (item : JVal) (field0 : String) : Option JVal := do
  let tags ← tags_of item
  let field := pyStrip field0
  if field == "name" then do
    let nv ← extract_name item
    pure (pyOr nv (.str ""))
  else if field == "address" then do
    let av ← pyGet item "address"
    if truthy av then
      pure av
    else do
      let addr ← extract_address tags
      if truthy addr then pure addr else pure (.str "")
  else if field == "phone" then do
    let pv ← pyGet item "phone"
    if truthy pv then
      pure pv
    else do
      let ph ← extract_phone tags
      if truthy ph then pure ph else pure (.str "")
  else if field == "category" then do
    let c ← determine_category item
    pure (.str c)
  else if field == "lat" || field == "lon" || field == "osm_id" || field == "osm_type" then do
    let v ← pyGet item field
    if v == JVal.null then pure (.str "") else pure (.str (pyStr v))
  else do
    let iv ← pyGet item field
    if truthy iv then
      pure (.str (pyStr iv))
    else do
      let tv ← pyGet tags field
      if truthy tv then pure (.str (pyStr tv)) else pure (.str "")

/-!  ## Embedding of `web-scraping/scrap.py`  -/

/-- Strict-mode allow-list for `amenity` (line 165 of `scrap.py`). -/
def allowed_amenities : List String :=
  ["school", "college", "university", "kindergarten", "library", "research"]

/-- Strict-mode allow-list for `building` (line 166). -/
def allowed_buildings : List String :=
  ["school", "college", "university"]

/-- Strict-mode allow-list for `office` (line 167). -/
def allowed_offices : List String :=
  ["education", "training"]

/-- The pattern `tags.get(k, "").lower()` (lines 162-164 of `scrap.py`). -/
def tag_lowD (tags : JVal) (k : String) : Option String := do
  let v ← pyGetD tags k (.str "")
  lower_of v

/-- Lines 160-169 of `parse_elements`: in `strict` mode an element passes
when any of the three lower-cased tags is in its allow-list; in any other
mode it always passes.  `tags.get(k, "").lower()` raises on a non-string
tag value or a non-dict `tags`. -/
def strict_keep (mode : String) (tags : JVal) : Option Bool :=
  if mode == "strict" then do
    let amenity ← tag_lowD tags "amenity"
    let building ← tag_lowD tags "building"
    let office ← tag_lowD tags "office"
    pure (allowed_amenities.contains amenity ||
          allowed_buildings.contains building ||
          allowed_offices.contains office)
  else
    pure true

/-- Lines 172-173: `el.get(k) or (el.get("center") or {}).get(k)`. -/
def el_coord (el : JVal) (k : String) : Option JVal := do
  let v ← pyGet el k
  if truthy v then
    pure v
  else do
    let c ← pyGet el "center"
    pyGet (pyOr c (.obj [])) k

/-- Outcome of the per-element loop body of `parse_elements`. -/
inductive ElemStep where
  | err
  | skip (seen2 : List (JVal × JVal))
  | keep (seen2 : List (JVal × JVal)) (r : JVal)

/-- The body of the `for el in elements` loop, lines 147-185: dedup by
`(type, id)`, require a truthy `tags.name`, the strict filter, then the
canonical record exactly as constructed at lines 176-185. -/
def step_elem (mode : String) (seen : List (JVal × JVal)) (el : JVal) : ElemStep :=
  match pyGet el "type", pyGet el "id" with
  | some t, some i =>
    if (t, i) ∈ seen then .skip seen
    else
      let seen2 := (t, i) :: seen
      match pyGetD el "tags" (.obj []) with
      | none => .err
      | some tags =>
        match pyGet tags "name" with
        | none => .err
        | some name =>
          if !truthy name then .skip seen2
          else
            match strict_keep mode tags with
            | none => .err
            | some keep =>
              if !keep then .skip seen2
              else
                match el_coord el "lat", el_coord el "lon",
                    extract_address tags, extract_phone tags with
                | some lat, some lon, some addr, some ph =>
                  .keep seen2 (.obj
                    [("osm_type", t), ("osm_id", i), ("name", name),
                     ("address", addr), ("phone", ph),
                     ("lat", lat), ("lon", lon), ("tags", tags)])
                | _, _, _, _ => .err
  | _, _ => .err

/-- The loop of `parse_elements` with its `seen` set and result list. -/
def parse_go (mode : String) (seen : List (JVal × JVal)) : List JVal → Option (List JVal)
  | [] => some []
  | el :: rest =>
    match step_elem mode seen el with
    | .err => none
    | .skip seen2 => parse_go mode seen2 rest
    | .keep seen2 r => (parse_go mode seen2 rest).map (r :: ·)

/-- Line 144, `parse_elements` (default mode `strict`). -/
def parse_elements (elements : List JVal) (mode : String := "strict") : Option (List JVal) :=
  parse_go mode [] elements

/-- The `(type, id)` keys of the raw elements on which both `get` calls
succeed, in input order. -/
def elemKeys (elements : List JVal) : List (JVal × JVal) :=
  elements.filterMap (fun el =>
    match pyGet el "type", pyGet el "id" with
    | some t, some i => some (t, i)
    | _, _ => none)

/-- The `(osm_type, osm_id)` pair of a produced canonical record. -/
def record_key (r : JVal) : Option (JVal × JVal) :=
  match pyGet r "osm_type", pyGet r "osm_id" with
  | some t, some i => some (t, i)
  | _, _ => none

/-- Decimal rendering of a non-negative rational, up to ten fraction
digits. -/
def fracStr : Nat → ℚ → String
  | 0, _ => ""
  | fuel + 1, q =>
    if q = 0 then ""
    else
      let d := (q * 10).floor
      toString d ++ fracStr fuel (q * 10 - (d : ℚ))

def qnumMag (q : ℚ) : String :=
  let ip := q.floor
  let frac := q - (ip : ℚ)
  if frac = 0 then toString ip ++ ".0"
  else toString ip ++ "." ++ fracStr 10 frac

/-- Rendering of a coordinate inside the f-string query (Python's float
`repr` abstracted as exact decimal rendering; no claim depends on the
formatting of coordinates). -/
def qnum (q : ℚ) : String :=
  if q < 0 then "-" ++ qnumMag (-q) else qnumMag q

/-- One Overpass clause `kind["key"~"vals"](around:radius,lat,lon);` as the
f-strings at lines 78-110 produce it. -/
def ovClause (kind key vals : String) (radius : Int) (lat lon : ℚ) : String :=
  kind ++ "[\"" ++ key ++ "\"~\"" ++ vals ++ "\"](around:" ++ toString radius ++
    "," ++ qnum lat ++ "," ++ qnum lon ++ ");"

/-- Line 67, `build_overpass_query` (default mode `strict`): header, the
per-kind clauses of the selected mode, and the output directive. -/
def build_overpass_query (lat lon : ℚ) (radius : Int) (mode : String := "strict") : String :=
  let q0 := "[out:json][timeout:45];("
  let body :=
    if mode == "strict" then
      let amenities := "school|college|university|kindergarten|library|research"
      let building_vals := "school|college|university"
      let office_vals := "education|training"
      ovClause "node" "amenity" amenities radius lat lon ++
      ovClause "way" "amenity" amenities radius lat lon ++
      ovClause "relation" "amenity" amenities radius lat lon ++
      ovClause "node" "building" building_vals radius lat lon ++
      ovClause "way" "building" building_vals radius lat lon ++
      ovClause "relation" "building" building_vals radius lat lon ++
      ovClause "node" "office" office_vals radius lat lon ++
      ovClause "way" "office" office_vals radius lat lon ++
      ovClause "relation" "office" office_vals radius lat lon
    else
      let amenities := "school|college|university|kindergarten|training|research|library"
      let building_vals := "school|college|university|training"
      let office_vals := "education|training"
      let name_keywords := "Institute|Academy|Center|Centre|Training|College|University|School"
      ovClause "node" "amenity" amenities radius lat lon ++
      ovClause "way" "amenity" amenities radius lat lon ++
      ovClause "relation" "amenity" amenities radius lat lon ++
      ovClause "node" "building" building_vals radius lat lon ++
      ovClause "way" "building" building_vals radius lat lon ++
      ovClause "relation" "building" building_vals radius lat lon ++
      ovClause "node" "office" office_vals radius lat lon ++
      ovClause "way" "office" office_vals radius lat lon ++
      ovClause "relation" "office" office_vals radius lat lon ++
      ovClause "node" "name" name_keywords radius lat lon ++
      ovClause "way" "name" name_keywords radius lat lon ++
      ovClause "relation" "name" name_keywords radius lat lon
  q0 ++ body ++ ");out center tags;"

/-- Line 118 inside `query_overpass`: the query text actually sent, built
with no `mode` argument. -/
def overpass_query_used (lat lon : ℚ) (radius : Int) : String :=
  build_overpass_query lat lon radius

/-- Line 254 inside `main`: the parse step as invoked there, with no
`mode` argument. -/
def main_parse (elements : List JVal) : Option (List JVal) :=
  parse_elements elements

/-- Lines 63-64 of `geocode_location`, the IP-based fallback applied to
the response body: `data.get("loc", "0,0")`, a two-way split on `","`,
and `float` on each part. -/
def ip_fallback (data : JVal) : Option (ℚ × ℚ) := do
  let loc ← pyGetD data "loc" (.str "0,0")
  let s ← asStr loc
  match pySplit1 ',' s with
  | [a, b] => do
    let x ← pyFloat a
    let y ← pyFloat b
    pure (x, y)
  | _ => none

/-- Python `s.endswith(suffix)`. -/
def strEnds (s suffix : String) : Bool :=
  charsLead suffix.data.reverse s.data.reverse

/-- What `save_results` writes: a JSON dump of the result records
(`json.dump(..., ensure_ascii=False, indent=2)` abstracted to the records
themselves), or a CSV file with a header and stringified rows. -/
inductive SaveOutput where
  | jsonOut (results : List JVal)
  | csvOut (header : List String) (rows : List (List String))

/-- Line 196: the fixed CSV columns. -/
def csv_keys : List String :=
  ["name", "address", "phone", "lat", "lon"]

/-- Line 189, `save_results`: JSON when `fmt == "json"` or the lower-cased
output path ends in `.json`; otherwise CSV rows `{k: r.get(k, "") ...}`
(each cell stringified by the csv writer; `r.get` raises on a non-dict
record). -/
def save_results (results : List JVal) (output : String) (fmt : String := "csv") :
    Option SaveOutput :=
  if fmt == "json" || strEnds (pyLowerStr output) ".json" then
    some (.jsonOut results)
  else do
    let rows ← results.mapM (fun r =>
      csv_keys.mapM (fun k => do
        let v ← pyGetD r k (.str "")
        pure (pyStr v)))
    some (.csvOut csv_keys rows)


/-!  ## Spec-side definitions (written from the claims' words, for the
refinement statements)  -/

/-- The string value of tag `k` when it is present with a string value. -/
def tagStr (tkvs : List (String × JVal)) (k : String) : Option String :=
  match lookupKV k tkvs with
  | some (.str s) => some s
  | _ => none

/-- The five ordered address tag keys of `extract_address`. -/
def addr_keys : List String :=
  ["addr:housenumber", "addr:street", "addr:city", "addr:postcode", "addr:country"]

/-- Spec-side: the non-empty string values among the tags under `ks`,
in order. -/
def strParts (tkvs : List (String × JVal)) (ks : List String) : List String :=
  (ks.filterMap (tagStr tkvs)).filter (fun s => !(s == ""))

/-- The tags-derived part of the address rule, in the amended claim's
words: non-empty tag values among the five ordered keys joined with
`", "`, else a truthy `addr:full`, else a truthy `contact:address`,
else `""`. -/
def address_from_tags_spec (tkvs : List (String × JVal)) : JVal :=
  if strParts tkvs addr_keys = [] then
    if truthy (objGet tkvs "addr:full") then objGet tkvs "addr:full"
    else if truthy (objGet tkvs "contact:address") then objGet tkvs "contact:address"
    else .str ""
  else .str (joinSep ", " (strParts tkvs addr_keys))

/-- The full address rule in the amended claim's words: the top-level
`address` when truthy, else the tags-derived address. -/
def address_spec (ikvs tkvs : List (String × JVal)) : JVal :=
  if truthy (objGet ikvs "address") then objGet ikvs "address"
  else address_from_tags_spec tkvs

/-- The generic-field rule in the amended claim's words: the stringified
top-level value if truthy, else the stringified tag value if truthy, else
the empty string. -/
def value_spec (ikvs tkvs : List (String × JVal)) (field : String) : String :=
  if truthy (objGet ikvs field) then pyStr (objGet ikvs field)
  else if truthy (objGet tkvs field) then pyStr (objGet tkvs field)
  else ""

/-!  ## Claims  -/

/-- C1: for every record whose `tags.amenity` equals `"school"`,
`determine_category` returns `"school"` regardless of the record's name
content — rule 1 short-circuits the later name-keyword rules 3-7.  The
hypotheses besides the amenity value only say that the record's other
consulted fields resolve without raising (the source computes them before
rule 1 fires); the name string is arbitrary. -/
theorem c1_amenity_school_short_circuits
    (item tags : JVal) (building office name : String)
    (ht : tags_of item = some tags)
    (ha : pyGet tags "amenity" = some (.str "school"))
    (hb : tag_low tags "building" = some building)
    (ho : tag_low tags "office" = some office)
    (hn : name_low item = some name) :
    determine_category item = some "school" := by
  have ha2 : tag_low tags "amenity" = some "school" := by
    simp [tag_low, ha]
    decide
  simp [determine_category, ht, ha2, hb, ho, hn]

/-- Witness for C1: a concrete record whose name holds madrasa, college and
school keywords is still classified `school` by the amenity rule. -/
theorem c1_witness :
    determine_category (.obj [("name", .str "Rahim Madrasa College School"),
      ("tags", .obj [("amenity", .str "school")])]) = some "school" :=
  c1_amenity_school_short_circuits
    (.obj [("name", .str "Rahim Madrasa College School"),
      ("tags", .obj [("amenity", .str "school")])])
    (.obj [("amenity", .str "school")]) "" "" "rahim madrasa college school"
    rfl rfl rfl rfl rfl

/-- C2: on a record on which classifier rules 1-3 do not match,
`determine_category` returns `"madrasa"` exactly when `tags.madrasa` is
truthy, OR (`tags.religion == "muslim"` AND the lower-cased name contains
`"madrasa"`) — the grouping Python's operator precedence gives the source
expression at line 145.  The resolution hypotheses say the consulted
fields resolve without raising; `h1`-`h5` say rules 1-2 fail and `h6`
says rule 3 fails. -/
theorem c2_rule4_boolean_grouping
    (item tags mad rel : JVal) (amenity building office name : String)
    (ht : tags_of item = some tags)
    (ha : tag_low tags "amenity" = some amenity)
    (hb : tag_low tags "building" = some building)
    (ho : tag_low tags "office" = some office)
    (hn : name_low item = some name)
    (hm : pyGet tags "madrasa" = some mad)
    (hr : pyGet tags "religion" = some rel)
    (h1 : amenity ≠ "school")
    (h2 : amenity ≠ "college") (h3 : amenity ≠ "university")
    (h4 : building ≠ "college") (h5 : building ≠ "university")
    (h6 : madrasa_keywords.any (fun kw => pyContains kw name) = false) :
    determine_category item = some "madrasa"
      ↔ (truthy mad = true ∨ (rel = .str "muslim" ∧ pyContains "madrasa" name = true)) := by
  simp only [determine_category, Option.bind_eq_bind', Option.some_bind', ht, ha, hb, ho, hn,
    hm, hr, beq_iff_eq, h1, h2, h3, h4, h5, h6, if_false, ite_false, Bool.or_eq_true,
    or_self, false_or, or_false, Bool.false_eq_true]
  simp only [Option.pure_def, Option.some_bind', if_true]
  by_cases hmad : truthy mad = true
  · simp [hmad]
  · by_cases hx : rel = JVal.str "muslim" ∧ pyContains "madrasa" name = true
    · simp [hmad, hx.1, hx.2]
    · have hcond : (rel == JVal.str "muslim" && pyContains "madrasa" name) = false := by
        cases h : rel == JVal.str "muslim" && pyContains "madrasa" name
        · rfl
        · exact absurd (by simpa [Bool.and_eq_true, beq_iff_eq] using h) hx
      by_cases hs : (school_keywords.any fun kw => pyContains kw name) = true <;>
        by_cases hc : (college_keywords.any fun kw => pyContains kw name) = true <;>
        by_cases hof : ((office = "education" ∨ office = "training") ∨ building = "school") <;>
        simp [hmad, hcond, hs, hc, hof, hx]

/-- Witness for C2: a record with no institute tags, a name free of
madrasa keywords and a truthy `tags.madrasa` is classified `madrasa`. -/
theorem c2_witness :
    determine_category (.obj [("name", .str "Darul Uloom"),
      ("tags", .obj [("madrasa", .str "yes")])]) = some "madrasa" :=
  (c2_rule4_boolean_grouping
      (.obj [("name", .str "Darul Uloom"), ("tags", .obj [("madrasa", .str "yes")])])
      (.obj [("madrasa", .str "yes")]) (.str "yes") .null "" "" "" "darul uloom"
      rfl rfl rfl rfl rfl rfl rfl
      (by decide) (by decide) (by decide) (by decide) (by decide) (by decide)).mpr
    (Or.inl (by decide))

/-!  ## Supporting lemmas  -/

theorem lookupKV_mem {kvs : List (String × JVal)} {k : String} {v : JVal}
    (h : lookupKV k kvs = some v) : (k, v) ∈ kvs := by
  induction kvs with
  | nil => simp [lookupKV] at h
  | cons p rest ih =>
    obtain ⟨k2, v2⟩ := p
    by_cases hk : k2 == k
    · simp only [lookupKV, hk, if_true] at h
      cases h
      simp only [beq_iff_eq] at hk
      subst hk
      exact List.mem_cons_self _ _
    · simp only [lookupKV, hk, Bool.false_eq_true, if_false] at h
      exact List.mem_cons_of_mem _ (ih h)

theorem strval_objGet {tkvs : List (String × JVal)}
    (hstr : ∀ p ∈ tkvs, ∃ s, (p : String × JVal).2 = JVal.str s) (k : String) :
    (objGet tkvs k = .null ∧ tagStr tkvs k = none) ∨
      ∃ s, objGet tkvs k = .str s ∧ tagStr tkvs k = some s := by
  cases h : lookupKV k tkvs with
  | none => exact Or.inl ⟨by simp [objGet, h], by simp [tagStr, h]⟩
  | some v =>
    obtain ⟨s, hs⟩ := hstr (k, v) (lookupKV_mem h)
    simp only at hs
    subst hs
    exact Or.inr ⟨s, by simp [objGet, h], by simp [tagStr, h]⟩

theorem strList_strs : ∀ ss : List String, strList (ss.map JVal.str) = some ss := by
  intro ss
  induction ss with
  | nil => rfl
  | cons s rest ih => simp [strList, asStr, ih]

theorem joinSep_ne_empty (sep : String) (s : String) (ss : List String) (hs : s ≠ "") :
    joinSep sep (s :: ss) ≠ "" := by
  cases ss with
  | nil => simpa [joinSep] using hs
  | cons t ts =>
    intro hcontra
    apply hs
    have hlen : (s ++ sep ++ joinSep sep (t :: ts)).length = 0 := by
      rw [show s ++ sep ++ joinSep sep (t :: ts) = joinSep sep (s :: t :: ts) from rfl, hcontra]
      rfl
    rw [String.length_append, String.length_append] at hlen
    have : s.length = 0 := by omega
    have hdata : s.data.length = 0 := this
    have : s.data = [] := List.length_eq_zero.mp hdata
    exact String.ext (by simp [this])

theorem parts_strings {tkvs : List (String × JVal)}
    (hstr : ∀ p ∈ tkvs, ∃ s, (p : String × JVal).2 = JVal.str s) :
    ∀ ks : List String,
      (ks.map (objGet tkvs)).filter truthy = (strParts tkvs ks).map JVal.str := by
  intro ks
  induction ks with
  | nil => simp [strParts]
  | cons k rest ih =>
    rcases strval_objGet hstr k with ⟨h1, h2⟩ | ⟨s, h1, h2⟩
    · simpa [strParts, h1, h2, truthy] using ih
    · by_cases hs : s = ""
      · subst hs
        simpa [strParts, h1, h2, truthy] using ih
      · simpa [strParts, h1, h2, truthy, hs] using ih

theorem extract_address_strs {tkvs : List (String × JVal)}
    (hstr : ∀ p ∈ tkvs, ∃ s, (p : String × JVal).2 = JVal.str s) :
    extract_address (.obj tkvs) = some (address_from_tags_spec tkvs) := by
  simp only [extract_address, pyGet, Option.bind_eq_bind', Option.some_bind']
  have hp : [objGet tkvs "addr:housenumber", objGet tkvs "addr:street",
      objGet tkvs "addr:city", objGet tkvs "addr:postcode",
      objGet tkvs "addr:country"].filter truthy = (strParts tkvs addr_keys).map JVal.str :=
    parts_strings hstr addr_keys
  rw [hp]
  cases hsp : strParts tkvs addr_keys with
  | nil =>
    simp only [address_from_tags_spec, hsp]
    by_cases h1 : truthy (objGet tkvs "addr:full") = true <;>
      by_cases h2 : truthy (objGet tkvs "contact:address") = true <;>
      simp [h1, h2]
  | cons s ss =>
    have hsl : strList (JVal.str s :: List.map JVal.str ss) = some (s :: ss) :=
      strList_strs (s :: ss)
    simp only [address_from_tags_spec, hsp]
    simp [pyJoin, hsl]

theorem address_from_tags_spec_truthy (tkvs : List (String × JVal)) :
    truthy (address_from_tags_spec tkvs) = true ∨ address_from_tags_spec tkvs = .str "" := by
  cases hsp : strParts tkvs addr_keys with
  | nil =>
    simp only [address_from_tags_spec, hsp]
    by_cases h1 : truthy (objGet tkvs "addr:full") = true
    · simp [h1]
    · by_cases h2 : truthy (objGet tkvs "contact:address") = true <;> simp [h1, h2]
  | cons s ss =>
    left
    have hmem : s ∈ strParts tkvs addr_keys := by rw [hsp]; exact List.mem_cons_self s ss
    have hps := List.of_mem_filter hmem
    have hne : s ≠ "" := by simpa using hps
    simp only [address_from_tags_spec, hsp]
    simpa [truthy] using joinSep_ne_empty ", " s ss hne

/-- C3 counterexample: the claim reads presence, the code reads
truthiness, and the code can raise on a malformed `tags` value.  On a
record with a present-but-empty top-level `address` and a tags city, the
code returns the tags-derived `"Dhaka"`, not the present top-level
`address` value `""` the claim requires; and on a record whose `tags`
value is a truthy non-dict, the dictionary access raises. -/
theorem c3_counterexample :
    extract_value (.obj [("address", .str ""), ("tags", .obj [("addr:city", .str "Dhaka")])])
        "address" = some (.str "Dhaka") ∧
    extract_value (.obj [("address", .str ""), ("tags", .obj [("addr:city", .str "Dhaka")])])
        "address" ≠ some (.str "") ∧
    extract_value (.obj [("tags", .str "zz")]) "address" = none :=
  ⟨rfl, by decide, rfl⟩

/-- C3 (amended): on a record that is a mapping whose resolved tags form
a mapping with string values, `extract_value _ "address"` does not raise
and resolves with presence read as truthiness: the top-level `address` if
non-empty, else the non-empty values among the five ordered `addr:*` tags
joined with `", "`, else a non-empty `addr:full`, else a non-empty
`contact:address`, else the empty string. -/
theorem c3_address_rule
    (item : JVal) (ikvs tkvs : List (String × JVal))
    (hitem : item = .obj ikvs)
    (ht : tags_of item = some (.obj tkvs))
    (hstr : ∀ p ∈ tkvs, ∃ s, (p : String × JVal).2 = JVal.str s) :
    extract_value item "address" = some (address_spec ikvs tkvs) := by
  subst hitem
  have hfield : pyStrip "address" = "address" := by decide
  simp only [extract_value, ht, Option.bind_eq_bind', Option.some_bind', hfield]
  have hav : pyGet (JVal.obj ikvs) "address" = some (objGet ikvs "address") := rfl
  simp only [hav, Option.some_bind']
  by_cases htop : truthy (objGet ikvs "address") = true
  · simp [address_spec, htop]
  · simp only [extract_address_strs hstr, Option.some_bind']
    rcases address_from_tags_spec_truthy tkvs with htt | htt
    · simp [address_spec, htop, htt]
    · have h0 : truthy (JVal.str "") = false := rfl
      simp [address_spec, htop, htt, h0]

/-- Witness for C3 at the claim's own example: tags
`{addr:street: Main St, addr:city: Dhaka}` give `"Main St, Dhaka"`. -/
theorem c3_witness :
    extract_value (.obj [("tags", .obj [("addr:street", .str "Main St"),
        ("addr:city", .str "Dhaka")])]) "address" = some (.str "Main St, Dhaka") := by
  have h := c3_address_rule
    (.obj [("tags", .obj [("addr:street", .str "Main St"), ("addr:city", .str "Dhaka")])])
    [("tags", .obj [("addr:street", .str "Main St"), ("addr:city", .str "Dhaka")])]
    [("addr:street", .str "Main St"), ("addr:city", .str "Dhaka")]
    rfl rfl
    (by
      intro p hp
      rcases List.mem_cons.mp hp with h1 | h1
      · exact ⟨"Main St", by rw [h1]⟩
      · rcases List.mem_cons.mp h1 with h2 | h2
        · exact ⟨"Dhaka", by rw [h2]⟩
        · simp at h2)
  rw [h]
  rfl
/-- C4 counterexample: `extract_value` can raise, and the fallback reads
truthiness rather than presence.  A record whose `tags` value is the
truthy non-dict `5` makes `tags.get(field)` raise (`none` in the model);
and a present-but-empty top-level value is skipped in favour of the tag
value, where the claim requires the present top-level value. -/
theorem c4_counterexample :
    extract_value (.obj [("tags", .num 5)]) "x" = none ∧
    extract_value (.obj [("x", .str ""), ("tags", .obj [("x", .str "y")])]) "x"
      = some (.str "y") ∧
    extract_value (.obj [("x", .str ""), ("tags", .obj [("x", .str "y")])]) "x"
      ≠ some (.str "") :=
  ⟨rfl, rfl, by decide⟩

/-- C4 (amended): for every record that is a mapping whose resolved tags
form a mapping, and every field name whose stripped form is none of the
special cases, `extract_value` does not raise and returns the stringified
top-level value if truthy, else the stringified tag value if truthy, else
the empty string. -/
theorem c4_generic_field_rule
    (item : JVal) (ikvs tkvs : List (String × JVal)) (field : String)
    (hitem : item = .obj ikvs)
    (ht : tags_of item = some (.obj tkvs))
    (h1 : pyStrip field ≠ "name") (h2 : pyStrip field ≠ "address")
    (h3 : pyStrip field ≠ "phone") (h4 : pyStrip field ≠ "category")
    (h5 : pyStrip field ≠ "lat") (h6 : pyStrip field ≠ "lon")
    (h7 : pyStrip field ≠ "osm_id") (h8 : pyStrip field ≠ "osm_type") :
    extract_value item field = some (.str (value_spec ikvs tkvs (pyStrip field))) := by
  subst hitem
  simp only [extract_value, ht, Option.bind_eq_bind', Option.some_bind', beq_iff_eq,
    h1, h2, h3, h4, h5, h6, h7, h8, Bool.or_eq_true, or_self, or_false, false_or,
    if_false, ite_false, decide_eq_true_eq]
  have hig : pyGet (JVal.obj ikvs) (pyStrip field) = some (objGet ikvs (pyStrip field)) := rfl
  have htg : pyGet (JVal.obj tkvs) (pyStrip field) = some (objGet tkvs (pyStrip field)) := rfl
  simp only [hig, htg, Option.some_bind']
  by_cases hti : truthy (objGet ikvs (pyStrip field)) = true
  · simp [value_spec, hti]
  · by_cases htt : truthy (objGet tkvs (pyStrip field)) = true <;>
      simp [value_spec, hti, htt]

/-- Witness for C4: the stripped unknown field `" custom "` resolves to
the tag value when the top-level value is falsy. -/
theorem c4_witness :
    pyStrip " custom " ≠ "name" ∧
    extract_value (.obj [("custom", .null), ("tags", .obj [("custom", .str "v")])])
        " custom " = some (.str "v") := by
  constructor
  · decide
  · have h := c4_generic_field_rule
      (.obj [("custom", .null), ("tags", .obj [("custom", .str "v")])])
      [("custom", .null), ("tags", .obj [("custom", .str "v")])]
      [("custom", .str "v")] " custom "
      rfl rfl (by decide) (by decide) (by decide) (by decide) (by decide) (by decide)
      (by decide) (by decide)
    rw [h]
    rfl
/-- C7: `load_json` on the parsed document: a JSON array is returned
as-is; on an object the keys `results`, `elements`, `items` are checked
in that order and the first holding a list wins (a key holding a non-list
is skipped); an object with no list-bearing key becomes a one-element
list; anything else gives the empty list. -/
theorem c7_load_json_shapes :
    (∀ xs : List JVal, load_json (.arr xs) = xs) ∧
    (∀ (kvs : List (String × JVal)) (xs : List JVal),
      lookupKV "results" kvs = some (.arr xs) → load_json (.obj kvs) = xs) ∧
    (∀ (kvs : List (String × JVal)) (xs : List JVal),
      (∀ ys : List JVal, lookupKV "results" kvs ≠ some (.arr ys)) →
      lookupKV "elements" kvs = some (.arr xs) → load_json (.obj kvs) = xs) ∧
    (∀ (kvs : List (String × JVal)) (xs : List JVal),
      (∀ ys : List JVal, lookupKV "results" kvs ≠ some (.arr ys)) →
      (∀ ys : List JVal, lookupKV "elements" kvs ≠ some (.arr ys)) →
      lookupKV "items" kvs = some (.arr xs) → load_json (.obj kvs) = xs) ∧
    (∀ kvs : List (String × JVal),
      (∀ key ∈ ["results", "elements", "items"], ∀ ys : List JVal,
        lookupKV key kvs ≠ some (.arr ys)) →
      load_json (.obj kvs) = [.obj kvs]) ∧
    (load_json .null = [] ∧ (∀ b, load_json (.bool b) = []) ∧
      (∀ n, load_json (.num n) = []) ∧ (∀ s, load_json (.str s) = [])) := by
  refine ⟨fun xs => rfl, ?_, ?_, ?_, ?_, rfl, fun b => rfl, fun n => rfl, fun s => rfl⟩
  · intro kvs xs hr
    simp [load_json, hr]
  · intro kvs xs hr he
    rcases hres : lookupKV "results" kvs with _ | v
    · simp [load_json, hres, he]
    · cases v <;> simp [load_json, hres, he]
      case arr ys => exact absurd hres (hr ys)
  · intro kvs xs hr he hi
    rcases hres : lookupKV "results" kvs with _ | v
    · rcases hels : lookupKV "elements" kvs with _ | w
      · simp [load_json, hres, hels, hi]
      · cases w <;> simp [load_json, hres, hels, hi]
        case arr ys => exact absurd hels (he ys)
    · cases v
      case arr ys => exact absurd hres (hr ys)
      all_goals
        rcases hels : lookupKV "elements" kvs with _ | w
        · simp [load_json, hres, hels, hi]
        · cases w
          case arr ys => exact absurd hels (he ys)
          all_goals simp [load_json, hres, hels, hi]
  · intro kvs hnone
    have hr := hnone "results" (by simp)
    have he := hnone "elements" (by simp)
    have hi := hnone "items" (by simp)
    rcases hres : lookupKV "results" kvs with _ | v
    · rcases hels : lookupKV "elements" kvs with _ | w
      · rcases hits : lookupKV "items" kvs with _ | u
        · simp [load_json, hres, hels, hits]
        · cases u <;> simp [load_json, hres, hels, hits]
          case arr ys => exact absurd hits (hi ys)
      · cases w
        case arr ys => exact absurd hels (he ys)
        all_goals
          rcases hits : lookupKV "items" kvs with _ | u
          · simp [load_json, hres, hels, hits]
          · cases u <;> simp [load_json, hres, hels, hits]
            case arr ys => exact absurd hits (hi ys)
    · cases v
      case arr ys => exact absurd hres (hr ys)
      all_goals
        rcases hels : lookupKV "elements" kvs with _ | w
        · rcases hits : lookupKV "items" kvs with _ | u
          · simp [load_json, hres, hels, hits]
          · cases u <;> simp [load_json, hres, hels, hits]
            case arr ys => exact absurd hits (hi ys)
        · cases w
          case arr ys => exact absurd hels (he ys)
          all_goals
            rcases hits : lookupKV "items" kvs with _ | u
            · simp [load_json, hres, hels, hits]
            · cases u <;> simp [load_json, hres, hels, hits]
              case arr ys => exact absurd hits (hi ys)

/-- Witness for C7: a document with an `elements` list and a non-list
`results` value round-trips the inner list; a bare object becomes a
one-element list. -/
theorem c7_witness :
    load_json (.obj [("results", .str "x"), ("elements", .arr [.num 1, .num 2])])
      = [.num 1, .num 2] ∧
    load_json (.obj [("version", .num 3)]) = [.obj [("version", .num 3)]] := by
  constructor
  · exact (c7_load_json_shapes.2.2.1)
      [("results", .str "x"), ("elements", .arr [.num 1, .num 2])] [.num 1, .num 2]
      (by intro ys; simp [lookupKV]) (by simp [lookupKV])
  · exact (c7_load_json_shapes.2.2.2.2.1)
      [("version", .num 3)]
      (by intro key hk ys; fin_cases hk <;> simp [lookupKV])
/-- C8: the IP-based fallback of the locator parses the `"lat,lon"`
string in the response's `loc` field, and when that field is absent it
returns `(0, 0)` instead of raising (the `data.get("loc", "0,0")`
default). -/
theorem c8_ip_fallback_default :
    (∀ kvs : List (String × JVal),
      lookupKV "loc" kvs = none → ip_fallback (.obj kvs) = some (0, 0)) ∧
    (∀ (kvs : List (String × JVal)) (s a b : String) (x y : ℚ),
      lookupKV "loc" kvs = some (.str s) →
      pySplit1 ',' s = [a, b] →
      pyFloat a = some x → pyFloat b = some y →
      ip_fallback (.obj kvs) = some (x, y)) := by
  constructor
  · intro kvs h
    simp only [ip_fallback, pyGetD, h, Option.getD_none, Option.some_bind',
      Option.bind_eq_bind']
    decide
  · intro kvs s a b x y hloc hsplit ha hb
    simp [ip_fallback, pyGetD, hloc, asStr, hsplit, ha, hb]

/-- Witness for C8: an empty response body gives `(0, 0)`; a response with
`loc = "23.5,-90.25"` parses both coordinates. -/
theorem c8_witness :
    ip_fallback (.obj []) = some (0, 0) ∧
    ip_fallback (.obj [("loc", .str "23.5,-90.25")]) = some (47/2, -361/4) := by
  constructor
  · exact c8_ip_fallback_default.1 [] rfl
  · have ha : pyFloat "23.5" = some (47/2 : ℚ) := by
      rw [show pyFloat "23.5" = some ((23 : ℚ) + 5 / 10 ^ 1) from rfl]
      norm_num
    have hb : pyFloat "-90.25" = some (-361/4 : ℚ) := by
      rw [show pyFloat "-90.25" = some (-((90 : ℚ) + 25 / 10 ^ 2)) from rfl]
      norm_num
    exact c8_ip_fallback_default.2 [("loc", .str "23.5,-90.25")]
      "23.5,-90.25" "23.5" "-90.25" (47/2) (-361/4) rfl (by decide) ha hb

/-- C9: the pipeline never exercises loose mode — `query_overpass` builds
its query with no `mode` argument and `main` parses with no `mode`
argument, and both defaults are `"strict"`, so the query sent and the
parse performed coincide with the strict-mode versions for every input. -/
theorem c9_pipeline_always_strict :
    (∀ (lat lon : ℚ) (radius : Int),
      overpass_query_used lat lon radius = build_overpass_query lat lon radius "strict") ∧
    (∀ elements : List JVal, main_parse elements = parse_elements elements "strict") :=
  ⟨fun _ _ _ => rfl, fun _ => rfl⟩

/-- C10: `save_results` writes JSON whenever the lower-cased output path
ends with `".json"`, even when the format argument is `"csv"`; CSV output
only ever happens for paths not ending in `".json"`, and then with the
fixed header `name, address, phone, lat, lon`. -/
theorem c10_save_results_json_wins
    (results : List JVal) (output fmt : String) :
    (strEnds (pyLowerStr output) ".json" = true →
      save_results results output fmt = some (.jsonOut results)) ∧
    (∀ hdr rows, save_results results output fmt = some (.csvOut hdr rows) →
      strEnds (pyLowerStr output) ".json" = false ∧ hdr = csv_keys) := by
  constructor
  · intro hend
    simp [save_results, hend]
  · intro hdr rows hcsv
    by_cases hend : strEnds (pyLowerStr output) ".json" = true
    · simp [save_results, hend] at hcsv
    · refine ⟨by simpa using hend, ?_⟩
      by_cases hfmt : fmt == "json"
      · simp [save_results, hfmt] at hcsv
      · simp only [save_results, hfmt, Bool.false_eq_true] at hcsv
        simp only [Bool.not_eq_true] at hend
        simp only [hend, Bool.or_self, Bool.false_eq_true, if_false] at hcsv
        cases hm : List.mapM
            (fun r => List.mapM (fun k => do
              let v ← pyGetD r k (.str "")
              pure (pyStr v)) csv_keys) results with
        | none => rw [hm] at hcsv; simp at hcsv
        | some rs =>
          rw [hm] at hcsv
          simp at hcsv
          exact hcsv.1.symm

/-- Witness for C10: with format `"csv"` but an upper-cased `.JSON` path
the JSON branch wins; a `.csv` path yields CSV with the fixed header. -/
theorem c10_witness :
    save_results [.num 1] "OUT.Json" "csv" = some (.jsonOut [.num 1]) ∧
    strEnds (pyLowerStr "o.csv") ".json" = false := by
  constructor
  · exact (c10_save_results_json_wins [.num 1] "OUT.Json" "csv").1 (by decide)
  · exact ((c10_save_results_json_wins ([] : List JVal) "o.csv" "csv").2
      csv_keys [] (by rfl)).1

/-- C6: in strict mode `parse_elements` drops every element whose
lower-cased `amenity`, `building` and `office` tags are all outside the
allow-lists, even when the element has a non-empty name (first conjunct:
the name is unconstrained); it keeps an element when ANY of the three is
in its allow-list, provided the element also passes the preceding
non-empty-name filter and its field resolutions do not raise (second
conjunct); in particular the claim's example — an element whose tags are
just `{name: "X"}` — is dropped (third conjunct). -/
theorem c6_strict_mode_filter :
    (∀ (ekvs tkvs : List (String × JVal)) (amenity building office : String),
      pyGetD (.obj ekvs) "tags" (.obj []) = some (.obj tkvs) →
      tag_lowD (.obj tkvs) "amenity" = some amenity →
      tag_lowD (.obj tkvs) "building" = some building →
      tag_lowD (.obj tkvs) "office" = some office →
      allowed_amenities.contains amenity = false →
      allowed_buildings.contains building = false →
      allowed_offices.contains office = false →
      parse_elements [.obj ekvs] "strict" = some []) ∧
    (∀ (ekvs tkvs : List (String × JVal)) (amenity building office : String)
        (latv lonv addr ph : JVal),
      pyGetD (.obj ekvs) "tags" (.obj []) = some (.obj tkvs) →
      truthy (objGet tkvs "name") = true →
      tag_lowD (.obj tkvs) "amenity" = some amenity →
      tag_lowD (.obj tkvs) "building" = some building →
      tag_lowD (.obj tkvs) "office" = some office →
      (allowed_amenities.contains amenity || allowed_buildings.contains building ||
        allowed_offices.contains office) = true →
      el_coord (.obj ekvs) "lat" = some latv →
      el_coord (.obj ekvs) "lon" = some lonv →
      extract_address (.obj tkvs) = some addr →
      extract_phone (.obj tkvs) = some ph →
      parse_elements [.obj ekvs] "strict" = some
        [.obj [("osm_type", objGet ekvs "type"), ("osm_id", objGet ekvs "id"),
          ("name", objGet tkvs "name"), ("address", addr), ("phone", ph),
          ("lat", latv), ("lon", lonv), ("tags", .obj tkvs)]]) ∧
    parse_elements [.obj [("tags", .obj [("name", .str "X")])]] "strict" = some [] := by
  refine ⟨?_, ?_, by rfl⟩
  · intro ekvs tkvs amenity building office htags ha hb ho hna hnb hno
    simp only [parse_elements, parse_go, step_elem, pyGet, List.not_mem_nil, if_false,
      htags, strict_keep, ha, hb, ho, Option.bind_eq_bind', Option.some_bind',
      hna, hnb, hno, Bool.or_self, Bool.not_false, if_true, ite_false, Bool.false_eq_true,
      reduceIte]
    by_cases hname : truthy (objGet tkvs "name") = true <;> simp [hname]
  · intro ekvs tkvs amenity building office latv lonv addr ph
      htags hname ha hb ho hkeep hlat hlon haddr hph
    simp only [parse_elements, parse_go, step_elem, pyGet, List.not_mem_nil, if_false,
      htags, hname, strict_keep, ha, hb, ho, hkeep, hlat, hlon, haddr, hph,
      Option.bind_eq_bind', Option.some_bind', Bool.not_true, Bool.false_eq_true,
      ite_false, if_true, Bool.not_false, reduceIte]
    simp

/-- Witness for C6: a named element with only a non-institute `building`
tag is dropped; a named element with `amenity: School` is kept. -/
theorem c6_witness :
    parse_elements [.obj [("tags", .obj [("name", .str "X"),
        ("building", .str "office")])]] "strict" = some [] ∧
    parse_elements [.obj [("tags", .obj [("name", .str "X"),
        ("amenity", .str "School")])]] "strict" = some
      [.obj [("osm_type", .null), ("osm_id", .null), ("name", .str "X"),
        ("address", .str ""), ("phone", .str ""), ("lat", .null), ("lon", .null),
        ("tags", .obj [("name", .str "X"), ("amenity", .str "School")])]] := by
  constructor
  · exact c6_strict_mode_filter.1
      [("tags", .obj [("name", .str "X"), ("building", .str "office")])]
      [("name", .str "X"), ("building", .str "office")] "" "office" ""
      rfl rfl rfl rfl (by decide) (by decide) (by decide)
  · exact c6_strict_mode_filter.2.1
      [("tags", .obj [("name", .str "X"), ("amenity", .str "School")])]
      [("name", .str "X"), ("amenity", .str "School")] "school" "" ""
      .null .null (.str "") (.str "")
      rfl (by decide) rfl rfl rfl (by decide) rfl rfl rfl rfl
theorem step_elem_dup {mode : String} {seen : List (JVal × JVal)} {x t i : JVal}
    (hx1 : pyGet x "type" = some t) (hx2 : pyGet x "id" = some i)
    (hmem : (t, i) ∈ seen) : step_elem mode seen x = .skip seen := by
  simp [step_elem, hx1, hx2, hmem]

theorem step_elem_fresh {mode : String} {seen : List (JVal × JVal)} {el t i : JVal}
    (hty : pyGet el "type" = some t) (hid : pyGet el "id" = some i)
    (hmem : (t, i) ∉ seen) :
    step_elem mode seen el = .err ∨
      step_elem mode seen el = .skip ((t, i) :: seen) ∨
      ∃ r, step_elem mode seen el = .keep ((t, i) :: seen) r ∧
        record_key r = some (t, i) := by
  simp only [step_elem, hty, hid, hmem, if_false, reduceIte]
  cases h2 : pyGetD el "tags" (.obj []) with
  | none => simp
  | some tags =>
    try simp only [h2]
    cases h3 : pyGet tags "name" with
    | none => simp
    | some name =>
      try simp only [h3]
      by_cases hn : truthy name = false
      · simp [hn]
      · simp only [Bool.not_eq_false] at hn
        simp only [hn, Bool.not_true, Bool.false_eq_true, if_false, reduceIte]
        cases h4 : strict_keep mode tags with
        | none => simp
        | some keep =>
          try simp only [h4]
          by_cases hk : keep = false
          · simp [hk]
          · simp only [Bool.not_eq_false] at hk
            simp only [hk, Bool.not_true, Bool.false_eq_true, if_false, reduceIte]
            cases h5 : el_coord el "lat" with
            | none => simp
            | some latv =>
              try simp only [h5]
              cases h6 : el_coord el "lon" with
              | none => simp
              | some lonv =>
                try simp only [h6]
                cases h7 : extract_address tags with
                | none => simp
                | some addr =>
                  try simp only [h7]
                  cases h8 : extract_phone tags with
                  | none => simp
                  | some ph =>
                    try simp only [h8]
                    exact Or.inr (Or.inr ⟨_, rfl, by simp [record_key, pyGet, objGet, lookupKV]⟩)

theorem step_elem_not_err {mode : String} {seen seen2 : List (JVal × JVal)} {el : JVal}
    (h : step_elem mode seen el = .skip seen2 ∨
      ∃ r, step_elem mode seen el = .keep seen2 r) :
    ∃ t i, pyGet el "type" = some t ∧ pyGet el "id" = some i ∧
      seen ⊆ seen2 ∧ (t, i) ∈ seen2 := by
  rcases hty : pyGet el "type" with _ | t
  · rcases h with h | ⟨r, h⟩ <;> simp [step_elem, hty] at h
  rcases hid : pyGet el "id" with _ | i
  · rcases h with h | ⟨r, h⟩ <;> simp [step_elem, hty, hid] at h
  refine ⟨t, i, rfl, rfl, ?_⟩
  by_cases hmem : (t, i) ∈ seen
  · have hs : step_elem mode seen el = .skip seen := step_elem_dup hty hid hmem
    rcases h with h | ⟨r, h⟩
    · rw [hs] at h
      cases h
      exact ⟨fun a ha => ha, hmem⟩
    · rw [hs] at h
      cases h
  · rcases @step_elem_fresh mode seen el t i hty hid hmem with hs | hs | ⟨r2, hs2, hkey⟩
    · rcases h with h | ⟨r, h⟩ <;> rw [hs] at h <;> cases h
    · rcases h with h | ⟨r, h⟩ <;> rw [hs] at h <;> cases h
      exact ⟨(fun a ha => List.mem_cons_of_mem _ ha), List.mem_cons_self _ _⟩
    · rcases h with h | ⟨r3, h⟩
      · rw [hs2] at h
        cases h
      · rw [hs2] at h
        injection h with h1 h2
        subst h1
        exact ⟨(fun a ha => List.mem_cons_of_mem _ ha), List.mem_cons_self _ _⟩

theorem step_elem_keep_spec {mode : String} {seen seen2 : List (JVal × JVal)} {el r : JVal}
    (h : step_elem mode seen el = .keep seen2 r) :
    ∃ t i, pyGet el "type" = some t ∧ pyGet el "id" = some i ∧
      (t, i) ∉ seen ∧ seen2 = (t, i) :: seen ∧ record_key r = some (t, i) := by
  rcases hty : pyGet el "type" with _ | t
  · simp [step_elem, hty] at h
  rcases hid : pyGet el "id" with _ | i
  · simp [step_elem, hty, hid] at h
  refine ⟨t, i, rfl, rfl, ?_⟩
  by_cases hmem : (t, i) ∈ seen
  · rw [step_elem_dup hty hid hmem] at h
    cases h
  · rcases @step_elem_fresh mode seen el t i hty hid hmem with hs | hs | ⟨r2, hs, hkey⟩
    · rw [hs] at h
      cases h
    · rw [hs] at h
      cases h
    · rw [hs] at h
      injection h with h1 h2
      subst h1
      subst h2
      exact ⟨hmem, rfl, hkey⟩

theorem parse_go_dup_drop {mode : String} {x t i : JVal}
    (hx1 : pyGet x "type" = some t) (hx2 : pyGet x "id" = some i) :
    ∀ (xs : List JVal) (seen : List (JVal × JVal)) (ys : List JVal),
      ((t, i) ∈ seen ∨ (t, i) ∈ elemKeys xs) →
      parse_go mode seen (xs ++ x :: ys) = parse_go mode seen (xs ++ ys) := by
  intro xs
  induction xs with
  | nil =>
    intro seen ys h
    have hmem : (t, i) ∈ seen := by
      rcases h with h | h
      · exact h
      · simp [elemKeys] at h
    simp only [List.nil_append, parse_go, step_elem_dup hx1 hx2 hmem]
  | cons e rest ih =>
    intro seen ys h
    have hmemkeys : ∀ seen2 : List (JVal × JVal),
        (step_elem mode seen e = .skip seen2 ∨ ∃ r, step_elem mode seen e = .keep seen2 r) →
        (t, i) ∈ seen2 ∨ (t, i) ∈ elemKeys rest := by
      intro seen2 hor
      obtain ⟨te, ie, hety, heid, hsub, hein⟩ := step_elem_not_err hor
      have hek : elemKeys (e :: rest) = (te, ie) :: elemKeys rest := by
        simp [elemKeys, hety, heid]
      rcases h with h | h
      · exact Or.inl (hsub h)
      · rw [hek] at h
        rcases List.mem_cons.mp h with h | h
        · exact Or.inl (h ▸ hein)
        · exact Or.inr h
    simp only [List.cons_append]
    cases hstep : step_elem mode seen e with
    | err => simp only [parse_go, hstep]
    | skip seen2 =>
      simp only [parse_go, hstep]
      exact ih seen2 ys (hmemkeys seen2 (Or.inl hstep))
    | keep seen2 r =>
      simp only [parse_go, hstep]
      rw [ih seen2 ys (hmemkeys seen2 (Or.inr ⟨r, hstep⟩))]

theorem parse_go_nodup {mode : String} :
    ∀ (els : List JVal) (seen : List (JVal × JVal)) (out : List JVal),
      parse_go mode seen els = some out →
      (out.map record_key).Nodup ∧
        ∀ r ∈ out, ∃ t i, record_key r = some (t, i) ∧ (t, i) ∉ seen := by
  intro els
  induction els with
  | nil =>
    intro seen out h
    simp only [parse_go, Option.some.injEq] at h
    subst h
    simp
  | cons el rest ih =>
    intro seen out h
    cases hstep : step_elem mode seen el with
    | err =>
      simp only [parse_go, hstep] at h
      exact Option.noConfusion h
    | skip seen2 =>
      simp only [parse_go, hstep] at h
      obtain ⟨hnd, hkeys⟩ := ih seen2 out h
      obtain ⟨te, ie, _, _, hsub, _⟩ := step_elem_not_err (Or.inl hstep)
      exact ⟨hnd, fun r hr => by
        obtain ⟨t2, i2, hk, hnot⟩ := hkeys r hr
        exact ⟨t2, i2, hk, fun hc => hnot (hsub hc)⟩⟩
    | keep seen2 r =>
      simp only [parse_go, hstep] at h
      obtain ⟨out', hout', rfl⟩ : ∃ out', parse_go mode seen2 rest = some out' ∧ out = r :: out' := by
        cases hpg : parse_go mode seen2 rest with
        | none => rw [hpg] at h; cases h
        | some o =>
          rw [hpg] at h
          simp only [Option.map_some', Option.some.injEq] at h
          exact ⟨o, rfl, h.symm⟩
      obtain ⟨t2, i2, _, _, hnotseen, hseen2, hkeyr⟩ := step_elem_keep_spec hstep
      obtain ⟨hnd, hkeys⟩ := ih seen2 out' hout'
      subst hseen2
      constructor
      · simp only [List.map_cons, List.nodup_cons]
        refine ⟨?_, hnd⟩
        intro hmm
        obtain ⟨r2, hr2, hkr2⟩ := List.mem_map.mp hmm
        obtain ⟨t3, i3, hk3, hnot3⟩ := hkeys r2 hr2
        rw [hk3] at hkr2
        rw [hkeyr] at hkr2
        cases hkr2
        exact hnot3 (List.mem_cons_self _ _)
      · intro r2 hr2
        rcases List.mem_cons.mp hr2 with h2 | h2
        · subst h2
          exact ⟨t2, i2, hkeyr, hnotseen⟩
        · obtain ⟨t3, i3, hk3, hnot3⟩ := hkeys r2 h2
          exact ⟨t3, i3, hk3, fun hc => hnot3 (List.mem_cons_of_mem _ hc)⟩

/-- C5 counterexample: an element with a distinct `(type, id)` pair (here
`(None, None)`, both keys absent) can yield ZERO canonical records — the
element is dropped by the unnamed-element filter — so "exactly one record
per distinct pair" fails; at-most-one is what holds. -/
theorem c5_counterexample :
    elemKeys [.obj []] = [(.null, .null)] ∧
    parse_elements [.obj []] "strict" = some [] :=
  ⟨rfl, rfl⟩

/-- C5 (amended): `parse_elements` yields AT MOST one canonical record per
distinct `(type, id)` pair — an element whose pair was already seen is
silently dropped wherever it sits (first conjunct: removing such a later
element never changes the output), and the produced records carry
pairwise distinct `(osm_type, osm_id)` keys (second conjunct); the first
occurrence alone is considered, but it yields a record only if it passes
the name and mode filters. -/
theorem c5_dedup_first_wins :
    (∀ (mode : String) (xs ys : List JVal) (x t i : JVal),
      pyGet x "type" = some t → pyGet x "id" = some i →
      (t, i) ∈ elemKeys xs →
      parse_elements (xs ++ x :: ys) mode = parse_elements (xs ++ ys) mode) ∧
    (∀ (mode : String) (els out : List JVal),
      parse_elements els mode = some out → (out.map record_key).Nodup) := by
  constructor
  · intro mode xs ys x t i h1 h2 h3
    exact parse_go_dup_drop h1 h2 xs [] ys (Or.inr h3)
  · intro mode els out h
    exact (parse_go_nodup els [] out h).1

/-- Witness for C5: a second element with the same `(node, 1)` key and a
different name changes nothing, and the keys of a concrete two-record
output are distinct. -/
theorem c5_witness :
    parse_elements [.obj [("type", .str "node"), ("id", .num 1),
        ("tags", .obj [("name", .str "A"), ("amenity", .str "school")])],
      .obj [("type", .str "node"), ("id", .num 1),
        ("tags", .obj [("name", .str "B"), ("amenity", .str "school")])]] "strict"
      = parse_elements [.obj [("type", .str "node"), ("id", .num 1),
        ("tags", .obj [("name", .str "A"), ("amenity", .str "school")])]] "strict" ∧
    (List.map record_key
      [.obj [("osm_type", .str "node"), ("osm_id", .num 1), ("name", .str "A"),
        ("address", .str ""), ("phone", .str ""), ("lat", .null), ("lon", .null),
        ("tags", .obj [("name", .str "A"), ("amenity", .str "school")])],
       .obj [("osm_type", .str "way"), ("osm_id", .num 1), ("name", .str "B"),
        ("address", .str ""), ("phone", .str ""), ("lat", .null), ("lon", .null),
        ("tags", .obj [("name", .str "B"), ("amenity", .str "school")])]]).Nodup := by
  constructor
  · exact c5_dedup_first_wins.1 "strict"
      [.obj [("type", .str "node"), ("id", .num 1),
        ("tags", .obj [("name", .str "A"), ("amenity", .str "school")])]] []
      (.obj [("type", .str "node"), ("id", .num 1),
        ("tags", .obj [("name", .str "B"), ("amenity", .str "school")])])
      (.str "node") (.num 1) rfl rfl (by decide)
  · exact c5_dedup_first_wins.2 "strict"
      [.obj [("type", .str "node"), ("id", .num 1),
        ("tags", .obj [("name", .str "A"), ("amenity", .str "school")])],
       .obj [("type", .str "way"), ("id", .num 1),
        ("tags", .obj [("name", .str "B"), ("amenity", .str "school")])]]
      [.obj [("osm_type", .str "node"), ("osm_id", .num 1), ("name", .str "A"),
        ("address", .str ""), ("phone", .str ""), ("lat", .null), ("lon", .null),
        ("tags", .obj [("name", .str "A"), ("amenity", .str "school")])],
       .obj [("osm_type", .str "way"), ("osm_id", .num 1), ("name", .str "B"),
        ("address", .str ""), ("phone", .str ""), ("lat", .null), ("lon", .null),
        ("tags", .obj [("name", .str "B"), ("amenity", .str "school")])]]
      (by rfl)
